import Mathlib

/-!
Verification of `bilibili_api/ass.py`: the ASS-conversion orchestration layer.

The file shallowly embeds the module's functions. File-system effects are
modelled as a map from paths to file contents, exceptions as an explicit
error type, and external calls (network retrieval, the danmaku2ass core and
the subtitle shims, which live outside the embedded module) as an
environment record supplying their results.
-/

namespace BiliAss

/-- A file system: a map from paths to file contents. -/
def FS := String → Option String

/-- Writing a file (`open(path, "w")` followed by `write`). -/
def fsWrite (p c : String) (fs : FS) : FS := fun q => if q = p then some c else fs q

/-- Removing a file (`os.remove`). -/
def fsRemove (p : String) (fs : FS) : FS := fun q => if q = p then none else fs q

/-- The empty file system. -/
def fsEmpty : FS := fun _ => none

/-- Python `out.replace(".ass", ".srt")` on the character list: every
non-overlapping occurrence of `.ass`, scanning left to right, is replaced
by `.srt`. -/
def pyReplace : List Char → List Char
  | '.' :: 'a' :: 's' :: 's' :: rest => '.' :: 's' :: 'r' :: 't' :: pyReplace rest
  | c :: rest => c :: pyReplace rest
  | [] => []

/-- Python `".ass" in s`: does `.ass` occur as a substring? -/
def containsAss : List Char → Bool
  | '.' :: 'a' :: 's' :: 's' :: _ => true
  | _ :: rest => containsAss rest
  | [] => false

/-- `out.replace(".ass", ".srt")` on strings. -/
def pyReplaceStr (s : String) : String := ⟨pyReplace s.data⟩

theorem pyReplace_eq_self_of_not_contains (s : List Char) (h : containsAss s = false) :
    pyReplace s = s := by
  induction s using pyReplace.induct with
  | case1 rest ih => simp [containsAss] at h
  | case2 c rest h2 ih =>
      rw [containsAss] at h
      · rw [pyReplace]
        · exact congrArg (c :: ·) (ih h)
        · intro a b hab; exact h2 a b hab
      · intro a b hab; exact h2 a b hab
  | case3 => rfl

theorem pyReplace_ne_self_of_contains (s : List Char) (h : containsAss s = true) :
    pyReplace s ≠ s := by
  induction s using pyReplace.induct with
  | case1 rest ih =>
      rw [pyReplace]
      intro hEq
      have := congrArg (fun l => l.get? 1) hEq
      simp at this
  | case2 c rest h2 ih =>
      rw [containsAss] at h
      · rw [pyReplace]
        · intro hEq
          exact ih h (List.cons.injEq .. ▸ hEq |>.2)
        · intro a b hab; exact h2 a b hab
      · intro a b hab; exact h2 a b hab
  | case3 => simp [containsAss] at h

theorem pyReplace_eq_self_iff (s : List Char) :
    pyReplace s = s ↔ containsAss s = false := by
  constructor
  · intro h
    by_contra hc
    exact pyReplace_ne_self_of_contains s (by simpa using hc) h
  · exact pyReplace_eq_self_of_not_contains s

/-- The exceptions the embedded module can raise.  Each Python exception
class is a distinct constructor, so "a distinct error kind, not a generic
failure" is expressible as equality with a particular constructor. -/
inductive AssError where
  /-- `ArgsException("page_index 和 cid 至少提供一个。")` -/
  | argsException
  /-- `ValueError` raised when no subtitle track matches the requested name. -/
  | subtitleNotFound
  /-- An exception propagated out of `obj.get_info()` (generic upstream failure). -/
  | upstreamFailure (msg : String)
  /-- The core rejecting an invalid stage size (precondition violation). -/
  | invalidStageSize
  /-- `credential.raise_for_no_sessdata()` raising for a credential without sessdata. -/
  | credentialNoSessdata
  /-- Python `AttributeError` from calling a method on `None`. -/
  | noneAttribute
deriving DecidableEq

/-- The keyword arguments `export_ass_from_xml` hands to the `Danmaku2ASS` core. -/
structure D2AArgs where
  input_files : String
  input_format : String
  output_file : String
  stage_width : Int
  stage_height : Int
  reserve_blank : Int
  font_face : String
  font_size : ℚ
  text_opacity : ℚ
  duration_marquee : ℚ
  duration_still : ℚ
deriving DecidableEq

/-- Observable events of one call, in program order: upstream calls,
file writes/removals performed by the module itself, and the calls into
the three conversion collaborators. -/
inductive Event where
  | getInfoCall
  | getDanmakusCall
  | getDanmakuXmlCall
  | pageIdCall (page : Int)
  | downloadCall (url : String)
  | fileWrite (path : String)
  | fileRemove (path : String)
  | json2srtCall (src dst : String)
  | srt2assCall (src dst : String)
  | danmaku2assCall (args : D2AArgs)
deriving DecidableEq

/-- Modelled from the spec: the ASS text the `Danmaku2ASS` core
(`bilibili_api/utils/danmaku2ass.py`, not under `src/`) emits — a header
block whose canvas resolution fields match the supplied stage size exactly,
followed by events derived from the parsed comment input (§4.3, §6). -/
def renderASS (a : D2AArgs) (input : String) : String :=
  "[Script Info]\nPlayResX: " ++ toString a.stage_width ++ "\nPlayResY: "
    ++ toString a.stage_height ++ "\n[V4+ Styles]\n[Events]\n" ++ input

/-- Modelled from the spec: the `Danmaku2ASS` core itself
(`bilibili_api/utils/danmaku2ass.py`, not under `src/`).  Per §9 it
"must simply require a valid stage size as a precondition and reject
zero/negative dimensions"; otherwise it reads the input file and writes the
complete ASS file at the output path (overwrite semantics, §4.3). -/
def Danmaku2ASS (a : D2AArgs) (fs : FS) : Except AssError FS × List Event :=
  if a.stage_width ≤ 0 ∨ a.stage_height ≤ 0 then
    (.error .invalidStageSize, [.danmaku2assCall a])
  else
    (.ok (fsWrite a.output_file (renderASS a ((fs a.input_files).getD "")) fs),
      [.danmaku2assCall a])

/-- Modelled from the spec: the `json2srt` shim
(`bilibili_api/utils/json2srt.py`, not under `src/`), a thin pass-through
reformatting of the captioning JSON into the basic subtitle-exchange (SRT)
format with no layout computation (§4.3); it writes the SRT at the output
path. -/
def json2srt (file_local output_local : String) (fs : FS) : FS × List Event :=
  (fsWrite output_local ("SRT\n" ++ ((fs file_local).getD "")) fs,
    [.json2srtCall file_local output_local])

/-- Modelled from the spec: the `srt2ass` shim
(`bilibili_api/utils/srt2ass.py`, not under `src/`), a thin pass-through
reformatting of SRT into the header+style+event ASS structure with no
layout computation (§4.3); it writes the ASS at the output path. -/
def srt2ass (file_local output_local theme : String) (fs : FS) : FS × List Event :=
  (fsWrite output_local
      ("[Script Info]\n[V4+ Styles]\ntheme=" ++ theme ++ "\n[Events]\n"
        ++ ((fs file_local).getD "")) fs,
    [.srt2assCall file_local output_local])

/-- The argument record `export_ass_from_xml` builds for `Danmaku2ASS`
(ass.py lines 47-59): stage size, font, opacity and durations come from the
caller; `reserve_blank` is the literal `0`. -/
def export_ass_from_xml_args (file_local output_local : String)
    (stage_size : Int × Int) (font_name : String)
    (font_size alpha fly_time static_time : ℚ) : D2AArgs :=
  { input_files := file_local
    input_format := "Bilibili"
    output_file := output_local
    stage_width := stage_size.1
    stage_height := stage_size.2
    reserve_blank := 0
    font_face := font_name
    font_size := font_size
    text_opacity := alpha
    duration_marquee := fly_time
    duration_still := static_time }

/-- `export_ass_from_xml` (ass.py lines 24-59): a single call into the
`Danmaku2ASS` core with the argument record above. -/
def export_ass_from_xml (file_local output_local : String)
    (stage_size : Int × Int) (font_name : String)
    (font_size alpha fly_time static_time : ℚ) (fs : FS) :
    Except AssError FS × List Event :=
  Danmaku2ASS
    (export_ass_from_xml_args file_local output_local stage_size font_name
      font_size alpha fly_time static_time) fs

/-- `export_ass_from_json` (ass.py lines 74-85):
`json2srt(file, out.replace(".ass", ".srt"))`, then
`srt2ass(out.replace(".ass", ".srt"), out, "movie")`, then
`os.remove(out.replace(".ass", ".srt"))`. -/
def export_ass_from_json (file_local output_local : String) (fs : FS) :
    FS × List Event :=
  let srt := pyReplaceStr output_local
  let r1 := json2srt file_local srt fs
  let r2 := srt2ass srt output_local "movie" r1.1
  (fsRemove srt r2.1, r1.2 ++ r2.2 ++ [.fileRemove srt])

/-- The `info` dict fields the module reads: `info["dimension"]["width"]`,
`info["dimension"]["height"]` and `info["subtitle"]["list"]` (a list of
entries with `lan_doc` and `subtitle_url`). -/
structure Subtitle where
  lan_doc : String
  subtitle_url : String
deriving DecidableEq

/-- Video metadata as consumed by the module. -/
structure VideoInfo where
  width : Int
  height : Int
  subtitle_list : List Subtitle
deriving DecidableEq

/-- The external collaborators (network retrieval layer): what each awaited
upstream call would return for the object at hand.  `get_info` is
`Except`-valued because the module wraps it in `try/except` in the danmaku
paths and lets it propagate in the subtitle path. -/
structure Env where
  /-- Result of `obj.get_info()`: metadata, or a propagating exception message. -/
  get_info : Except String VideoInfo
  /-- Result of `get_danmakus(...)`: each element is one danmaku's `to_xml()` text. -/
  get_danmakus : List String
  /-- Result of `get_danmaku_xml(...)`: the whole XML document. -/
  get_danmaku_xml : String
  /-- Result of `v._Video__get_page_id_by_index(page)`. -/
  page_id : Int → Int
  /-- Body of the HTTP GET of a subtitle URL. -/
  download : String → String

/-- The runtime type of the dispatched object.  In the library `Episode`
subclasses `Video`, so `isinstance(obj, Video)` is true for episodes too;
`CheeseVideo` is unrelated. -/
inductive VideoObj where
  | video
  | episode
  | cheese
deriving DecidableEq

/-- `isinstance(obj, Video)` (episodes included). -/
def VideoObj.isVideo : VideoObj → Bool
  | .cheese => false
  | _ => true

/-- `isinstance(obj, Episode)`. -/
def VideoObj.isEpisode : VideoObj → Bool
  | .episode => true
  | _ => false

/-- A credential object; the only attribute the module's behaviour depends
on is whether sessdata is present. -/
structure Credential where
  sessdata : Bool
deriving DecidableEq

/-- Modelled from the spec: `Credential.raise_for_no_sessdata`
(`bilibili_api/utils/Credential.py`, not under `src/`); authentication is
an external collaborator (§1), and per its name the method raises exactly
when the credential carries no sessdata. -/
def raise_for_no_sessdata (c : Credential) : Except AssError Unit :=
  if c.sessdata then .ok () else .error .credentialNoSessdata

/-- `if date: credential.raise_for_no_sessdata()` (ass.py lines 147-148).
With a date but `credential=None` the attribute access on `None` raises. -/
def date_check (date : Option Int) (credential : Option Credential) :
    Except AssError Unit :=
  match date with
  | none => .ok ()
  | some _ =>
    match credential with
    | none => .error .noneAttribute
    | some c => raise_for_no_sessdata c

/-- `tempfile.gettempdir()`: the fixed per-process temporary directory,
shared by every call in the module. -/
def gettempdir : String := "/tmp"

/-- The fixed path `gettempdir() + "/danmaku_temp.xml"` used by both
danmaku conversion functions. -/
def danmaku_temp_path : String := gettempdir ++ "/danmaku_temp.xml"

/-- The fixed path `gettempdir() + "/" + "subtitle.json"` used by
`make_ass_file_subtitle`. -/
def subtitle_json_path : String := gettempdir ++ "/" ++ "subtitle.json"

/-- Outcome of one embedded call: the value or exception it finished with,
the file system afterwards, and the event trace in program order. -/
structure Run where
  result : Except AssError Unit
  fs : FS
  events : List Event

/-- `make_ass_file_subtitle` (ass.py lines 88-112): fetch `get_info`, scan
`info["subtitle"]["list"]` for the first entry whose `lan_doc` equals the
requested name; on a match download its `subtitle_url`, write the bytes to
the temp JSON path, convert via `export_ass_from_json` and return;
otherwise raise `ValueError("没有找到指定字幕")`. -/
def make_ass_file_subtitle (env : Env) (out name : String) (fs : FS) : Run :=
  match env.get_info with
  | .error e => ⟨.error (.upstreamFailure e), fs, [.getInfoCall]⟩
  | .ok info =>
    match info.subtitle_list.find? (fun s => s.lan_doc == name) with
    | some s =>
      let fs1 := fsWrite subtitle_json_path (env.download s.subtitle_url) fs
      let r2 := export_ass_from_json subtitle_json_path out fs1
      ⟨.ok (), r2.1,
        [.getInfoCall, .downloadCall s.subtitle_url,
          .fileWrite subtitle_json_path] ++ r2.2⟩
    | none => ⟨.error .subtitleNotFound, fs, [.getInfoCall]⟩

/-- The cid-resolution prologue shared by both danmaku functions
(ass.py lines 151-157 and 219-225): episodes force `cid = 0`; a plain
video uses the given `cid`, or resolves it from `page`, or raises
`ArgsException` when both are `None`. -/
def resolve_cid (env : Env) (obj : VideoObj) (page cid : Option Int) :
    Except AssError (Int × List Event) :=
  if obj.isEpisode then .ok (0, [])
  else
    match cid with
    | some c => .ok (c, [])
    | none =>
      match page with
      | none => .error .argsException
      | some p => .ok (env.page_id p, [.pageIdCall p])

/-- The `try: info = await v.get_info() except: info = {"dimension":
{"width": 1440, "height": 1080}}` block followed by the `stage_size`
construction (ass.py lines 158-164 and 226-232). -/
def stage_from_info (env : Env) : Int × Int :=
  match env.get_info with
  | .ok info => (info.width, info.height)
  | .error _ => (1440, 1080)

/-- The common tail of both danmaku functions: write the danmaku XML text
to the shared temp path, then run `export_ass_from_xml` on it
(ass.py lines 172-186 and 240-251).  A core exception propagates, leaving
the temp file in place. -/
def write_temp_and_export (xml_content out : String) (stage_size : Int × Int)
    (font_name : String) (font_size alpha fly_time static_time : ℚ)
    (evts : List Event) (fs : FS) : Run :=
  let fs1 := fsWrite danmaku_temp_path xml_content fs
  let r2 := export_ass_from_xml danmaku_temp_path out stage_size font_name
    font_size alpha fly_time static_time fs1
  match r2.1 with
  | .ok fs2 => ⟨.ok (), fs2, evts ++ [.fileWrite danmaku_temp_path] ++ r2.2⟩
  | .error e => ⟨.error e, fs1, evts ++ [.fileWrite danmaku_temp_path] ++ r2.2⟩

/-- `make_ass_file_danmakus_protobuf` (ass.py lines 115-186). -/
def make_ass_file_danmakus_protobuf (env : Env) (obj : VideoObj)
    (page : Option Int) (out : String) (cid : Option Int)
    (credential : Option Credential) (date : Option Int)
    (font_name : String) (font_size alpha fly_time static_time : ℚ)
    (fs : FS) : Run :=
  match date_check date credential with
  | .error e => ⟨.error e, fs, []⟩
  | .ok () =>
    if obj.isVideo then
      match resolve_cid env obj page cid with
      | .error e => ⟨.error e, fs, []⟩
      | .ok (_, cidEvts) =>
        let stage_size := stage_from_info env
        let xml := "<i>" ++ String.join env.get_danmakus ++ "</i>"
        write_temp_and_export xml out stage_size font_name font_size alpha
          fly_time static_time
          (cidEvts ++ [.getInfoCall, .getDanmakusCall]) fs
    else
      let xml := "<i>" ++ String.join env.get_danmakus ++ "</i>"
      write_temp_and_export xml out (1440, 1080) font_name font_size alpha
        fly_time static_time [.getDanmakusCall] fs

/-- `make_ass_file_danmakus_xml` (ass.py lines 189-251). -/
def make_ass_file_danmakus_xml (env : Env) (obj : VideoObj)
    (page : Option Int) (out : String) (cid : Option Int)
    (font_name : String) (font_size alpha fly_time static_time : ℚ)
    (fs : FS) : Run :=
  if obj.isVideo then
    match resolve_cid env obj page cid with
    | .error e => ⟨.error e, fs, []⟩
    | .ok (_, cidEvts) =>
      let stage_size := stage_from_info env
      write_temp_and_export env.get_danmaku_xml out stage_size font_name
        font_size alpha fly_time static_time
        (cidEvts ++ [.getInfoCall, .getDanmakuXmlCall]) fs
  else
    write_temp_and_export env.get_danmaku_xml out (1440, 1080) font_name
      font_size alpha fly_time static_time [.getDanmakuXmlCall] fs

theorem pyReplaceStr_eq_self_iff (s : String) :
    pyReplaceStr s = s ↔ containsAss s.data = false := by
  rw [← pyReplace_eq_self_iff]
  constructor
  · intro h
    have h2 : (pyReplaceStr s).data = s.data := congrArg String.data h
    simpa [pyReplaceStr] using h2
  · intro h
    unfold pyReplaceStr
    exact congrArg String.mk h

/-- C4: every call to `export_ass_from_json` first runs the JSON→SRT shim
to the intermediate path `out.replace(".ass", ".srt")`, then runs the
SRT→ASS shim from that intermediate path to the output path, then removes
the intermediate; the trace contains no direct JSON→ASS conversion. -/
theorem C4_json_goes_via_srt (file_local output_local : String) (fs : FS) :
    (export_ass_from_json file_local output_local fs).2 =
      [Event.json2srtCall file_local (pyReplaceStr output_local),
       Event.srt2assCall (pyReplaceStr output_local) output_local,
       Event.fileRemove (pyReplaceStr output_local)] := rfl

/-- C5: for every stage size with a zero or negative width or height, the
conversion entry point `export_ass_from_xml` ends in the precondition
error instead of producing an ASS file. -/
theorem C5_invalid_stage_rejected (file_local output_local : String)
    (stage_size : Int × Int) (font_name : String)
    (font_size alpha fly_time static_time : ℚ) (fs : FS)
    (h : stage_size.1 ≤ 0 ∨ stage_size.2 ≤ 0) :
    (export_ass_from_xml file_local output_local stage_size font_name
        font_size alpha fly_time static_time fs).1
      = .error .invalidStageSize := by
  unfold export_ass_from_xml Danmaku2ASS export_ass_from_xml_args
  rw [if_pos h]

theorem C5_witness :
    ((0 : Int) ≤ 0 ∨ (0 : Int) ≤ 0) ∧
    (export_ass_from_xml "in.xml" "out.ass" (0, 720) "Simsun" 25 1 7 5
        fsEmpty).1 = .error .invalidStageSize :=
  ⟨Or.inl le_rfl,
    C5_invalid_stage_rejected "in.xml" "out.ass" (0, 720) "Simsun" 25 1 7 5
      fsEmpty (Or.inl (by decide))⟩

/-- C6 counterexample: the blank-reserve pixel count is not caller-supplied
— no choice of the caller's arguments to `export_ass_from_xml` ever makes
the `reserve_blank` handed to the core differ from the hard-coded `0`. -/
theorem C6_counterexample :
    ¬ ∃ f o s fn fsz al ft st,
      (export_ass_from_xml_args f o s fn fsz al ft st).reserve_blank ≠ 0 := by
  rintro ⟨f, o, s, fn, fsz, al, ft, st, h⟩
  exact h rfl

/-- C6 (amended): the caller-supplied configuration of the ASS export is
stage width/height, font name, font size, opacity, scroll duration and
still duration; the blank-reserve pixel count is not caller-supplied but
fixed to `0` by the wrapper. -/
theorem C6_config_surface (file_local output_local : String)
    (stage_size : Int × Int) (font_name : String)
    (font_size alpha fly_time static_time : ℚ) :
    (export_ass_from_xml_args file_local output_local stage_size font_name
        font_size alpha fly_time static_time).stage_width = stage_size.1
    ∧ (export_ass_from_xml_args file_local output_local stage_size font_name
        font_size alpha fly_time static_time).stage_height = stage_size.2
    ∧ (export_ass_from_xml_args file_local output_local stage_size font_name
        font_size alpha fly_time static_time).font_face = font_name
    ∧ (export_ass_from_xml_args file_local output_local stage_size font_name
        font_size alpha fly_time static_time).font_size = font_size
    ∧ (export_ass_from_xml_args file_local output_local stage_size font_name
        font_size alpha fly_time static_time).text_opacity = alpha
    ∧ (export_ass_from_xml_args file_local output_local stage_size font_name
        font_size alpha fly_time static_time).duration_marquee = fly_time
    ∧ (export_ass_from_xml_args file_local output_local stage_size font_name
        font_size alpha fly_time static_time).duration_still = static_time
    ∧ (export_ass_from_xml_args file_local output_local stage_size font_name
        font_size alpha fly_time static_time).reserve_blank = 0 :=
  ⟨rfl, rfl, rfl, rfl, rfl, rfl, rfl, rfl⟩

/-- C8: when the output path does not contain `".ass"`, the intermediate
SRT path equals the output path, so the cleanup removes the output itself;
an output file persists at `output_local` after `export_ass_from_json`
exactly when `output_local` contains `".ass"`. -/
theorem C8_output_survives_iff_dot_ass (file_local output_local : String)
    (fs : FS) :
    (containsAss output_local.data = false →
      pyReplaceStr output_local = output_local)
    ∧ (((export_ass_from_json file_local output_local fs).1
          output_local).isSome
        ↔ containsAss output_local.data = true) := by
  constructor
  · intro h
    exact (pyReplaceStr_eq_self_iff output_local).2 h
  · unfold export_ass_from_json json2srt srt2ass fsRemove fsWrite
    by_cases h : containsAss output_local.data
    · have hne : pyReplaceStr output_local ≠ output_local := by
        intro hEq
        rw [(pyReplaceStr_eq_self_iff output_local).1 hEq] at h
        exact Bool.false_ne_true h
      simp [Ne.symm hne, h]
    · have hEq : pyReplaceStr output_local = output_local :=
        (pyReplaceStr_eq_self_iff output_local).2 (by simpa using h)
      simp [hEq, h]

theorem C8_witness :
    (pyReplaceStr "outtxt" = "outtxt")
    ∧ (((export_ass_from_json "f.json" "outtxt" fsEmpty).1 "outtxt").isSome
        ↔ containsAss "outtxt".data = true) :=
  ⟨(C8_output_survives_iff_dot_ass "f.json" "outtxt" fsEmpty).1 (by decide),
    (C8_output_survives_iff_dot_ass "f.json" "outtxt" fsEmpty).2⟩

/-- A concrete retrieval environment used to instantiate theorems with
hypotheses on closed inputs. -/
def subEnv : Env :=
  { get_info := .ok ⟨1920, 1080,
      [⟨"English", "http://e"⟩, ⟨"中文（自动生成）", "http://s"⟩]⟩
    get_danmakus := ["<d>one</d>"]
    get_danmaku_xml := "<i></i>"
    page_id := fun _ => 77
    download := fun u => "json-from-" ++ u }

/-- C1: `make_ass_file_subtitle` ends in the distinct lookup error
(`ValueError`, a constructor of its own, not the generic upstream failure)
exactly when no entry of the subtitle track list has `lan_doc` equal to the
requested name; when a match exists, the first matching entry is the one
downloaded, the SRT→ASS shim targets the output path, and no error is
raised. -/
theorem C1_subtitle_lookup (env : Env) (out name : String) (fs : FS)
    (info : VideoInfo) (h : env.get_info = .ok info) :
    ((make_ass_file_subtitle env out name fs).result
        = .error .subtitleNotFound
      ↔ ∀ s ∈ info.subtitle_list, s.lan_doc ≠ name)
    ∧ (∀ s, info.subtitle_list.find? (fun t => t.lan_doc == name) = some s →
        (make_ass_file_subtitle env out name fs).result = .ok ()
        ∧ Event.downloadCall s.subtitle_url
            ∈ (make_ass_file_subtitle env out name fs).events
        ∧ Event.srt2assCall (pyReplaceStr out) out
            ∈ (make_ass_file_subtitle env out name fs).events) := by
  unfold make_ass_file_subtitle
  rw [h]
  dsimp only
  cases hf : List.find? (fun s => s.lan_doc == name) info.subtitle_list with
  | none =>
    dsimp only
    refine ⟨?_, ?_⟩
    · simp only [List.find?_eq_none, beq_iff_eq] at hf
      simpa using hf
    · intro t ht
      exact Option.noConfusion ht
  | some s =>
    dsimp only
    have h1 : s.lan_doc = name := by simpa using List.find?_some hf
    have h2 : s ∈ info.subtitle_list := List.mem_of_find?_eq_some hf
    refine ⟨iff_of_false (by simp) (fun hall => hall s h2 h1), ?_⟩
    intro t ht
    have hts : s = t := by simpa using ht
    subst hts
    refine ⟨rfl, by simp, ?_⟩
    simp [export_ass_from_json, json2srt, srt2ass]

theorem C1_witness :
    (make_ass_file_subtitle subEnv "/v/sub.ass" "中文（自动生成）"
        fsEmpty).result = .ok ()
    ∧ Event.downloadCall "http://s"
        ∈ (make_ass_file_subtitle subEnv "/v/sub.ass" "中文（自动生成）"
            fsEmpty).events := by
  have h := (C1_subtitle_lookup subEnv "/v/sub.ass" "中文（自动生成）" fsEmpty
      ⟨1920, 1080, [⟨"English", "http://e"⟩, ⟨"中文（自动生成）", "http://s"⟩]⟩
      rfl).2 ⟨"中文（自动生成）", "http://s"⟩ (by decide)
  exact ⟨h.1, h.2.1⟩

/-- C2 counterexample: a danmaku conversion that succeeds leaves the
temporary XML file in place after returning — it is not removed. -/
theorem C2_counterexample :
    (make_ass_file_danmakus_protobuf subEnv .video none "/v/out.ass" (some 3)
        none none "Simsun" 25 1 7 5 fsEmpty).result = .ok ()
    ∧ (make_ass_file_danmakus_protobuf subEnv .video none "/v/out.ass" (some 3)
        none none "Simsun" 25 1 7 5 fsEmpty).fs danmaku_temp_path
      = some "<i><d>one</d></i>" := by
  exact ⟨rfl, rfl⟩

theorem write_temp_persists (xml out : String) (stage : Int × Int)
    (fn : String) (fsz al ft st : ℚ) (evts : List Event) (fs : FS) :
    (write_temp_and_export xml out stage fn fsz al ft st evts fs).fs
      danmaku_temp_path ≠ none := by
  unfold write_temp_and_export export_ass_from_xml Danmaku2ASS
    export_ass_from_xml_args
  dsimp only
  by_cases hP : stage.1 ≤ 0 ∨ stage.2 ≤ 0
  · rw [if_pos hP]
    dsimp only
    simp [fsWrite]
  · rw [if_neg hP]
    dsimp only
    simp only [fsWrite]
    split <;> simp

/-- C2 (amended): only the intermediate SRT file is removed after use;
the temporary danmaku XML file and the temporary subtitle JSON file are
left in place after the conversion (the JSON survives whenever the
output's SRT sibling path does not collide with it). -/
theorem C2_only_srt_removed :
    (∀ file_local output_local fs,
      (export_ass_from_json file_local output_local fs).1
        (pyReplaceStr output_local) = none)
    ∧ (∀ env page out c cred fn fsz al ft st fs,
        (make_ass_file_danmakus_protobuf env .video page out (some c) cred
            none fn fsz al ft st fs).fs danmaku_temp_path ≠ none)
    ∧ (∀ env out name fs info s, env.get_info = .ok info →
        info.subtitle_list.find? (fun t => t.lan_doc == name) = some s →
        pyReplaceStr out ≠ subtitle_json_path →
        (make_ass_file_subtitle env out name fs).fs subtitle_json_path
          ≠ none) := by
  refine ⟨?_, ?_, ?_⟩
  · intro file_local output_local fs
    simp [export_ass_from_json, json2srt, srt2ass, fsRemove]
  · intro env page out c cred fn fsz al ft st fs
    exact write_temp_persists ("<i>" ++ String.join env.get_danmakus ++ "</i>")
      out (stage_from_info env) fn fsz al ft st
      [Event.getInfoCall, Event.getDanmakusCall] fs
  · intro env out name fs info s hinfo hfind hsrt
    unfold make_ass_file_subtitle
    rw [hinfo]
    dsimp only
    rw [hfind]
    dsimp only
    unfold export_ass_from_json json2srt srt2ass fsRemove fsWrite
    dsimp only
    rw [if_neg (fun hEq => hsrt hEq.symm)]
    by_cases hout : subtitle_json_path = out
    · rw [if_pos hout]
      simp
    · rw [if_neg hout, if_neg (fun hEq => hsrt hEq.symm), if_pos rfl]
      simp

theorem C2_witness :
    (export_ass_from_json "f.json" "/v/o.ass" fsEmpty).1
        (pyReplaceStr "/v/o.ass") = none
    ∧ (make_ass_file_danmakus_protobuf subEnv .video none "/v/o.ass" (some 3)
        none none "Simsun" 25 1 7 5 fsEmpty).fs danmaku_temp_path ≠ none
    ∧ (make_ass_file_subtitle subEnv "/v/sub.ass" "English" fsEmpty).fs
        subtitle_json_path ≠ none :=
  ⟨C2_only_srt_removed.1 "f.json" "/v/o.ass" fsEmpty,
    C2_only_srt_removed.2.1 subEnv none "/v/o.ass" 3 none "Simsun" 25 1 7 5
      fsEmpty,
    C2_only_srt_removed.2.2 subEnv "/v/sub.ass" "English" fsEmpty
      ⟨1920, 1080, [⟨"English", "http://e"⟩, ⟨"中文（自动生成）", "http://s"⟩]⟩
      ⟨"English", "http://e"⟩ rfl (by decide) (by decide)⟩

/-- A retrieval environment whose `get_info` fails, for instantiating
fallback-stage theorems. -/
def errEnv : Env :=
  { get_info := .error "api down"
    get_danmakus := ["<d>x</d>"]
    get_danmaku_xml := "<i><d>x</d></i>"
    page_id := fun _ => 0
    download := fun _ => "" }

theorem write_temp_and_export_valid (xml out : String) (stage : Int × Int)
    (fn : String) (fsz al ft st : ℚ) (evts : List Event) (fs : FS)
    (h1 : 0 < stage.1) (h2 : 0 < stage.2) :
    (write_temp_and_export xml out stage fn fsz al ft st evts fs).result
      = .ok ()
    ∧ (write_temp_and_export xml out stage fn fsz al ft st evts fs).events
      = evts ++ [Event.fileWrite danmaku_temp_path]
        ++ [Event.danmaku2assCall
              (export_ass_from_xml_args danmaku_temp_path out stage fn fsz al
                ft st)] := by
  unfold write_temp_and_export export_ass_from_xml Danmaku2ASS
  dsimp only
  rw [if_neg (by dsimp only [export_ass_from_xml_args]; omega)]
  exact ⟨rfl, rfl⟩

/-- C3: when `get_info` fails, both danmaku conversion functions proceed
(no error) and hand the core the fallback stage size 1440×1080. -/
theorem C3_fallback_stage (env : Env) (page : Option Int) (out : String)
    (c : Int) (cred : Option Credential) (fn : String) (fsz al ft st : ℚ)
    (fs : FS) (msg : String) (h : env.get_info = .error msg) :
    ((make_ass_file_danmakus_protobuf env .video page out (some c) cred none
        fn fsz al ft st fs).result = .ok ()
      ∧ ∃ a, Event.danmaku2assCall a
            ∈ (make_ass_file_danmakus_protobuf env .video page out (some c)
                cred none fn fsz al ft st fs).events
          ∧ a.stage_width = 1440 ∧ a.stage_height = 1080)
    ∧ ((make_ass_file_danmakus_xml env .video page out (some c) fn fsz al ft
        st fs).result = .ok ()
      ∧ ∃ a, Event.danmaku2assCall a
            ∈ (make_ass_file_danmakus_xml env .video page out (some c) fn fsz
                al ft st fs).events
          ∧ a.stage_width = 1440 ∧ a.stage_height = 1080) := by
  have hstage : stage_from_info env = (1440, 1080) := by
    unfold stage_from_info
    rw [h]
  constructor
  · have hw := write_temp_and_export_valid
      ("<i>" ++ String.join env.get_danmakus ++ "</i>") out
      (stage_from_info env) fn fsz al ft st
      [Event.getInfoCall, Event.getDanmakusCall] fs
      (by rw [hstage]; decide) (by rw [hstage]; decide)
    refine ⟨hw.1,
      export_ass_from_xml_args danmaku_temp_path out (stage_from_info env)
        fn fsz al ft st, ?_, ?_, ?_⟩
    · exact hw.2.symm ▸ (by simp)
    · simp [export_ass_from_xml_args, hstage]
    · simp [export_ass_from_xml_args, hstage]
  · have hw := write_temp_and_export_valid env.get_danmaku_xml out
      (stage_from_info env) fn fsz al ft st
      [Event.getInfoCall, Event.getDanmakuXmlCall] fs
      (by rw [hstage]; decide) (by rw [hstage]; decide)
    refine ⟨hw.1,
      export_ass_from_xml_args danmaku_temp_path out (stage_from_info env)
        fn fsz al ft st, ?_, ?_, ?_⟩
    · exact hw.2.symm ▸ (by simp)
    · simp [export_ass_from_xml_args, hstage]
    · simp [export_ass_from_xml_args, hstage]

theorem C3_witness :
    (make_ass_file_danmakus_protobuf errEnv .video none "/v/c3.ass" (some 9)
        none none "Simsun" 25 1 7 5 fsEmpty).result = .ok ()
    ∧ ∃ a, Event.danmaku2assCall a
          ∈ (make_ass_file_danmakus_xml errEnv .video none "/v/c3.ass"
              (some 9) "Simsun" 25 1 7 5 fsEmpty).events
        ∧ a.stage_width = 1440 ∧ a.stage_height = 1080 := by
  have h := C3_fallback_stage errEnv none "/v/c3.ass" 9 none "Simsun" 25 1 7
    5 fsEmpty "api down" rfl
  exact ⟨h.1.1, h.2.2⟩

/-- C9 counterexample: with a history date supplied and `credential=None`,
the protobuf call whose `page` and `cid` are both `None` fails with the
attribute error raised by `None.raise_for_no_sessdata()` — not with the
arguments error the claim requires. -/
theorem C9_counterexample :
    (make_ass_file_danmakus_protobuf subEnv .video none "/v/out.ass" none
        none (some 20220101) "Simsun" 25 1 7 5 fsEmpty).result
      = .error .noneAttribute
    ∧ (make_ass_file_danmakus_protobuf subEnv .video none "/v/out.ass" none
        none (some 20220101) "Simsun" 25 1 7 5 fsEmpty).result
      ≠ .error .argsException := by
  refine ⟨rfl, fun hc => ?_⟩
  exact absurd (Except.error.inj hc) (by decide)

/-- C9 (amended): for every call on a plain `Video` with both `page` and
`cid` equal to `None`, provided the optional history-date credential check
passes (no date, or a sessdata-bearing credential), the protobuf function
raises the arguments error with an empty trace — before any retrieval and
before any file write; the xml function does so for every such call. -/
theorem C9_args_error_on_missing_page_and_cid (env : Env) (out : String)
    (cred : Option Credential) (date : Option Int) (fn : String)
    (fsz al ft st : ℚ) (fs : FS) (h : date_check date cred = .ok ()) :
    ((make_ass_file_danmakus_protobuf env .video none out none cred date fn
        fsz al ft st fs).result = .error .argsException
      ∧ (make_ass_file_danmakus_protobuf env .video none out none cred date
          fn fsz al ft st fs).events = [])
    ∧ ((make_ass_file_danmakus_xml env .video none out none fn fsz al ft st
        fs).result = .error .argsException
      ∧ (make_ass_file_danmakus_xml env .video none out none fn fsz al ft st
          fs).events = []) := by
  constructor
  · unfold make_ass_file_danmakus_protobuf
    rw [h]
    exact ⟨rfl, rfl⟩
  · exact ⟨rfl, rfl⟩

theorem C9_witness :
    date_check none none = .ok ()
    ∧ (make_ass_file_danmakus_protobuf subEnv .video none "/v/w9.ass" none
        none none "Simsun" 25 1 7 5 fsEmpty).result = .error .argsException
    ∧ (make_ass_file_danmakus_xml subEnv .video none "/v/w9.ass" none
        "Simsun" 25 1 7 5 fsEmpty).events = [] := by
  have h := C9_args_error_on_missing_page_and_cid subEnv "/v/w9.ass" none
    none "Simsun" 25 1 7 5 fsEmpty rfl
  exact ⟨rfl, h.1.1, h.2.2⟩

/-- C10: for a `CheeseVideo` both danmaku conversion functions never call
`get_info` and always hand the core the fixed stage size 1440×1080,
whatever `get_info` would have returned. -/
theorem C10_cheese_fixed_stage (env : Env) (page : Option Int) (out : String)
    (cid : Option Int) (cred : Option Credential) (date : Option Int)
    (fn : String) (fsz al ft st : ℚ) (fs : FS)
    (h : date_check date cred = .ok ()) :
    ((make_ass_file_danmakus_protobuf env .cheese page out cid cred date fn
        fsz al ft st fs).result = .ok ()
      ∧ Event.getInfoCall ∉ (make_ass_file_danmakus_protobuf env .cheese
          page out cid cred date fn fsz al ft st fs).events
      ∧ ∃ a, Event.danmaku2assCall a
            ∈ (make_ass_file_danmakus_protobuf env .cheese page out cid cred
                date fn fsz al ft st fs).events
          ∧ a.stage_width = 1440 ∧ a.stage_height = 1080)
    ∧ ((make_ass_file_danmakus_xml env .cheese page out cid fn fsz al ft st
        fs).result = .ok ()
      ∧ Event.getInfoCall ∉ (make_ass_file_danmakus_xml env .cheese page out
          cid fn fsz al ft st fs).events
      ∧ ∃ a, Event.danmaku2assCall a
            ∈ (make_ass_file_danmakus_xml env .cheese page out cid fn fsz al
                ft st fs).events
          ∧ a.stage_width = 1440 ∧ a.stage_height = 1080) := by
  constructor
  · have hw := write_temp_and_export_valid
      ("<i>" ++ String.join env.get_danmakus ++ "</i>") out (1440, 1080) fn
      fsz al ft st [Event.getDanmakusCall] fs (by decide) (by decide)
    unfold make_ass_file_danmakus_protobuf
    rw [h]
    refine ⟨hw.1, hw.2.symm ▸ (by simp),
      export_ass_from_xml_args danmaku_temp_path out (1440, 1080) fn fsz al
        ft st, hw.2.symm ▸ (by simp), rfl, rfl⟩
  · have hw := write_temp_and_export_valid env.get_danmaku_xml out
      (1440, 1080) fn fsz al ft st [Event.getDanmakuXmlCall] fs (by decide)
      (by decide)
    refine ⟨hw.1, hw.2.symm ▸ (by simp),
      export_ass_from_xml_args danmaku_temp_path out (1440, 1080) fn fsz al
        ft st, hw.2.symm ▸ (by simp), rfl, rfl⟩

theorem C10_witness :
    date_check none none = .ok ()
    ∧ (make_ass_file_danmakus_protobuf subEnv .cheese none "/v/w10.ass" none
        none none "Simsun" 25 1 7 5 fsEmpty).result = .ok ()
    ∧ Event.getInfoCall ∉ (make_ass_file_danmakus_xml subEnv .cheese none
        "/v/w10.ass" none "Simsun" 25 1 7 5 fsEmpty).events := by
  have h := C10_cheese_fixed_stage subEnv none "/v/w10.ass" none none none
    "Simsun" 25 1 7 5 fsEmpty rfl
  exact ⟨rfl, h.1.1, h.2.2.1⟩

/-- One pending danmaku conversion, reduced to its two observable steps in
the module (ass.py lines 172-186 / 240-251): the output path, and the XML
text it writes to the shared fixed temporary file before converting. -/
structure ConvCall where
  out : String
  xml : String
deriving DecidableEq

/-- Step 1 of a conversion: write the danmaku XML to the shared fixed temp
path (ass.py lines 172-176 / 240-241). -/
def convTempWrite (c : ConvCall) (fs : FS) : FS :=
  fsWrite danmaku_temp_path c.xml fs

/-- The core arguments of a conversion's export step, with the module's
default style parameters. -/
def convArgs (c : ConvCall) : D2AArgs :=
  export_ass_from_xml_args danmaku_temp_path c.out (1440, 1080) "Simsun" 25
    1 7 5

/-- Step 2 of a conversion: run the core from the shared temp path to the
call's own output path (ass.py lines 177-186 / 242-251). -/
def convExport (c : ConvCall) (fs : FS) : FS :=
  match (Danmaku2ASS (convArgs c) fs).1 with
  | .ok fs2 => fs2
  | .error _ => fs

/-- Two conversions run one after the other: each call's temp write is
immediately followed by its own export. -/
def seqTwo (a b : ConvCall) (fs : FS) : FS :=
  convExport b (convTempWrite b (convExport a (convTempWrite a fs)))

/-- Two conversions interleaved: both temp writes land before either
export runs. -/
def interleavedTwo (a b : ConvCall) (fs : FS) : FS :=
  convExport b (convExport a (convTempWrite b (convTempWrite a fs)))

theorem convExport_eq (c : ConvCall) (fs : FS) :
    convExport c fs
      = fsWrite c.out
          (renderASS (convArgs c) ((fs danmaku_temp_path).getD "")) fs := by
  unfold convExport Danmaku2ASS
  rw [if_neg (by dsimp only [convArgs, export_ass_from_xml_args]; decide)]
  rfl

/-- C7 counterexample: two conversions with distinct outputs and distinct
danmakus, interleaved, do not produce the same output file as the same two
calls run sequentially — the shared temp path lets the second call's data
leak into the first call's output. -/
theorem C7_counterexample :
    interleavedTwo ⟨"/v/a.ass", "<i>A</i>"⟩ ⟨"/v/b.ass", "<i>B</i>"⟩ fsEmpty
        "/v/a.ass"
      ≠ seqTwo ⟨"/v/a.ass", "<i>A</i>"⟩ ⟨"/v/b.ass", "<i>B</i>"⟩ fsEmpty
        "/v/a.ass" := by
  decide

/-- C7 (amended): the conversions do not own their intermediate state
exclusively — both write the single fixed temp path.  Run strictly one
after the other, two conversions with distinct output paths each produce
their output from their own danmakus; but in the interleaving that puts
both temp writes before the exports, the first conversion's output is
rendered from the second conversion's danmakus. -/
theorem C7_shared_temp_interference (a b : ConvCall) (fs : FS)
    (hab : a.out ≠ b.out) (ha : a.out ≠ danmaku_temp_path)
    (_hb : b.out ≠ danmaku_temp_path) :
    seqTwo a b fs a.out = some (renderASS (convArgs a) a.xml)
    ∧ seqTwo a b fs b.out = some (renderASS (convArgs b) b.xml)
    ∧ interleavedTwo a b fs a.out
      = some (renderASS (convArgs a) b.xml) := by
  refine ⟨?_, ?_, ?_⟩ <;>
    simp [seqTwo, interleavedTwo, convExport_eq, convTempWrite, fsWrite,
      hab, ha, Ne.symm ha]

theorem C7_witness :
    seqTwo ⟨"/v/a.ass", "<i>A</i>"⟩ ⟨"/v/b.ass", "<i>B</i>"⟩ fsEmpty
        "/v/a.ass"
      = some (renderASS (convArgs ⟨"/v/a.ass", "<i>A</i>"⟩) "<i>A</i>")
    ∧ interleavedTwo ⟨"/v/a.ass", "<i>A</i>"⟩ ⟨"/v/b.ass", "<i>B</i>"⟩
        fsEmpty "/v/a.ass"
      = some (renderASS (convArgs ⟨"/v/a.ass", "<i>A</i>"⟩) "<i>B</i>") := by
  have h := C7_shared_temp_interference ⟨"/v/a.ass", "<i>A</i>"⟩
    ⟨"/v/b.ass", "<i>B</i>"⟩ fsEmpty (by decide) (by decide) (by decide)
  exact ⟨h.1, h.2.2⟩

end BiliAss
